import Mathlib

/-! Verification of the TRISA Global Directory Service (GDS) registration and
certificate-issuance pipeline.

The definitions below are a shallow embedding of the Go sources in
`pkg/gds/gds.go` (the registration API: `Register`, `Lookup`,
`VerifyContact`, `validateEndpoint`, `ValidateCommonName`) together with a
model of the Certificate Manager tick policy.  The Certificate Manager's
source file is not part of the available sources (only its test suite,
`pkg/gds/certs_test.go`, is), so its per-tick policy is modelled from the
specification, as are the small helpers of the `models` and `secrets`
packages that the GDS handlers call.  Go standard-library functions used by
the handlers (`net.SplitHostPort`, `strconv.Atoi`) are embedded from their
documented stdlib semantics.

Machine integers do not overflow on any path exercised here; numbers are
embedded as `Nat`/`Int` with explicit bounds checks where the Go code has
them (`strconv.Atoi`).
-/

namespace GDS

/-! Section: Enumerations (protobuf values from the TRISA models) -/

/-- VASP verification states, in protobuf enum order
(`pb.VerificationState`): the order matters because `VerifyContact`
compares states with `>`. -/
inductive VerificationState where
  | NO_VERIFICATION
  | SUBMITTED
  | EMAIL_VERIFIED
  | PENDING_REVIEW
  | REVIEWED
  | ISSUING_CERTIFICATE
  | VERIFIED
  | REJECTED
  | APPEALED
  | ERRORED
deriving DecidableEq, Repr

/-- Protobuf enum numeric value of a verification state. -/
def VerificationState.toNat : VerificationState → Nat
  | .NO_VERIFICATION => 0
  | .SUBMITTED => 1
  | .EMAIL_VERIFIED => 2
  | .PENDING_REVIEW => 3
  | .REVIEWED => 4
  | .ISSUING_CERTIFICATE => 5
  | .VERIFIED => 6
  | .REJECTED => 7
  | .APPEALED => 8
  | .ERRORED => 9

/-- Certificate request states (`models.CertificateRequestState`). -/
inductive CertificateRequestState where
  | INITIALIZED
  | READY_TO_SUBMIT
  | PROCESSING
  | DOWNLOADING
  | DOWNLOADED
  | COMPLETED
  | CR_REJECTED
  | CR_ERRORED
deriving DecidableEq, Repr

/-- gRPC status codes used by the GDS handlers. -/
inductive ErrCode where
  | InvalidArgument
  | NotFound
  | AlreadyExists
  | Aborted
  | FailedPrecondition
  | Internal
deriving DecidableEq, Repr

/-- A gRPC error: status code plus message, as built by `status.Error`. -/
structure Err where
  code : ErrCode
  msg : String
deriving DecidableEq, Repr

/-- Decidable equality for `Except`, needed to evaluate the handlers on
concrete inputs. -/
instance {ε α : Type} [DecidableEq ε] [DecidableEq α] : DecidableEq (Except ε α) :=
  fun a b =>
    match a, b with
    | .ok x, .ok y =>
      if h : x = y then .isTrue (by rw [h])
      else .isFalse (by intro hh; cases hh; exact h rfl)
    | .error x, .error y =>
      if h : x = y then .isTrue (by rw [h])
      else .isFalse (by intro hh; cases hh; exact h rfl)
    | .ok _, .error _ => .isFalse (by intro hh; cases hh)
    | .error _, .ok _ => .isFalse (by intro hh; cases hh)

/-! Section: Token generation

`secrets.CreateToken` is not among the available sources.  Modelled from the
spec: §3 "the PKCS#12 decryption password, 16 random bytes, ASCII-encoded"
and §4.4 "a 48-byte random verification token".  Randomness is replaced by a
deterministic seed; the properties the claims rely on are the byte length
and the ASCII encoding. -/

/-- The 26 upper-case ASCII letters used by the modelled token generator. -/
def tokenAlphabet : List Char :=
  ['A','B','C','D','E','F','G','H','I','J','K','L','M',
   'N','O','P','Q','R','S','T','U','V','W','X','Y','Z']

/-- Modelled from the spec: `secrets.CreateToken(n)` returns an `n`-byte
ASCII token (the `secrets` package is not under the available sources).
The seed stands in for the entropy source. -/
def createToken (seed n : Nat) : String :=
  String.mk ((List.range n).map (fun i => tokenAlphabet.getD ((seed / 26 ^ i) % 26) 'A'))

/-- A string is pure ASCII: every character is a single UTF-8 byte. -/
def asciiOnly (s : String) : Bool :=
  s.data.all (fun c => c.toNat < 128)

theorem createToken_length (seed n : Nat) : (createToken seed n).length = n := by
  simp [createToken, String.length]

theorem createToken_ascii (seed n : Nat) : asciiOnly (createToken seed n) = true := by
  simp only [asciiOnly, createToken, List.all_eq_true]
  intro c hc
  have hc' : c ∈ (List.range n).map
      (fun i => tokenAlphabet.getD ((seed / 26 ^ i) % 26) 'A') := hc
  simp only [List.mem_map, List.mem_range] at hc'
  obtain ⟨i, _, rfl⟩ := hc'
  have hlt : (seed / 26 ^ i) % 26 < 26 := Nat.mod_lt _ (by norm_num)
  have hall : ∀ m < 26, ((tokenAlphabet.getD m 'A').toNat < 128) := by decide
  exact decide_eq_true (hall _ hlt)

/-! Section: Go standard library embeddings -/

/-- Index of the first occurrence of a character in a list, if any. -/
def firstIdx : List Char → Char → Option Nat
  | [], _ => none
  | x :: xs, c =>
    if x = c then some 0 else (firstIdx xs c).map (· + 1)

/-- Index of the last occurrence of a character in a list, if any. -/
def lastIdx : List Char → Char → Option Nat
  | [], _ => none
  | x :: xs, c =>
    match lastIdx xs c with
    | some i => some (i + 1)
    | none => if x = c then some 0 else none

/-- Embedding of Go `net.SplitHostPort`: split `host:port` at the last
colon, handling the `[ipv6]:port` bracket form and rejecting malformed
addresses exactly as the stdlib does. -/
def splitHostPortL (s : List Char) : Except String (List Char × List Char) :=
  match lastIdx s ':' with
  | none => .error "missing port in address"
  | some i =>
    match s with
    | '[' :: _ =>
      match firstIdx s ']' with
      | none => .error "missing ']' in address"
      | some e =>
        if e + 1 = s.length then .error "missing port in address"
        else if e + 1 = i then
          if (s.drop 1).contains '[' then .error "unexpected '[' in address"
          else if (s.drop (e + 1)).contains ']' then .error "unexpected ']' in address"
          else .ok ((s.drop 1).take (e - 1), s.drop (i + 1))
        else if (s.drop (e + 1)).head? = some ':' then .error "too many colons in address"
        else .error "missing port in address"
    | _ =>
      let host := s.take i
      if host.contains ':' then .error "too many colons in address"
      else if s.contains '[' then .error "unexpected '[' in address"
      else if s.contains ']' then .error "unexpected ']' in address"
      else .ok (host, s.drop (i + 1))

/-- String-level wrapper of `splitHostPortL`. -/
def splitHostPort (s : String) : Except String (String × String) :=
  (splitHostPortL s.data).map (fun p => (String.mk p.1, String.mk p.2))

/-- Embedding of Go `strconv.Atoi` (= `ParseInt(s, 10, 64)` on 64-bit
platforms): optional sign, at least one digit, all digits, 64-bit range. -/
def goAtoi (s : String) : Except String Int :=
  let l := s.data
  let (neg, ds) :=
    match l with
    | '-' :: rest => (true, rest)
    | '+' :: rest => (false, rest)
    | _ => (false, l)
  if ds.isEmpty then .error "invalid syntax"
  else if ds.all Char.isDigit then
    let n : Nat := ds.foldl (fun a c => a * 10 + (c.toNat - 48)) 0
    let v : Int := if neg then -(n : Int) else (n : Int)
    if v < -(2 ^ 63) ∨ v ≥ 2 ^ 63 then .error "value out of range"
    else .ok v
  else .error "invalid syntax"

/-! Section: Endpoint and common name validation (from `pkg/gds/gds.go`) -/

/-- Embedding of `validateEndpoint` (gds.go): split host:port, require a
non-empty host, a non-empty port, and a port `strconv.Atoi` accepts. -/
def validateEndpoint (endpoint : String) : Except String Unit :=
  match splitHostPort endpoint with
  | .error _ => .error "unable to parse endpoint string"
  | .ok (host, port) =>
    if host = "" then .error "missing host in endpoint string"
    else if port = "" then .error "missing port in endpoint string"
    else
      match goAtoi port with
      | .error _ => .error "endpoint port is not an integer"
      | .ok _ => .ok ()

/-- One DNS label of the `cnre` regular expression (gds.go): a single
alphanumeric character, or an alphanumeric, up to 61 characters that are
alphanumeric or `-`, and a final alphanumeric. -/
def labelOK : List Char → Bool
  | [] => false
  | [c] => c.isAlphanum
  | c :: rest =>
    c.isAlphanum && decide (rest.dropLast.length ≤ 61) &&
      rest.dropLast.all (fun d => d.isAlphanum || d = '-') &&
      (rest.getLast?.map Char.isAlphanum).getD false

/-- Embedding of the anchored `cnre` regular expression match (gds.go):
the string is a non-empty dot-separated sequence of valid labels. -/
def cnreMatch (s : String) : Bool :=
  (s.data.splitOn '.').all labelOK

/-- Embedding of `ValidateCommonName` (gds.go): non-empty, no leading
wildcard `*`, and a `cnre` regular-expression match. -/
def ValidateCommonName (name : String) : Except String Unit :=
  if name = "" then .error "common name should not be empty"
  else
    match name.data with
    | '*' :: _ => .error "wildcards are not allowed in TRISA common names"
    | _ =>
      if cnreMatch name then .ok ()
      else .error "common name does not match domain name regular expression"

/-! Section: Data model

Embedded from the protobuf models described by the spec (§3) and used by
`pkg/gds/gds.go`.  Extra-data side tables (contact verification tokens,
admin token, certificate-request id list, audit log, email send-log) are
exposed as first-class fields, as §9 of the spec directs for rewrites. -/

/-- One contact slot of a VASP.  `token`/`verified` embed the per-contact
`{token, verified}` extra data (`""` means no token); `sendLog` embeds the
per-contact email send-log. -/
structure Contact where
  name : String
  email : String
  phone : String
  token : String
  verified : Bool
  sendLog : List String
deriving DecidableEq, Repr

/-- A contact whose wire payload is all-zero (`contact.IsZero()`); the
token/verified/send-log extra data is not part of the wire payload. -/
def Contact.IsZero (c : Contact) : Bool :=
  c.name = "" && c.email = "" && c.phone = ""

/-- The four named contact slots of a VASP. -/
structure Contacts where
  administrative : Option Contact
  technical : Option Contact
  billing : Option Contact
  legal : Option Contact
deriving DecidableEq, Repr

/-- The four contact kinds. -/
inductive ContactKind where
  | legal
  | administrative
  | technical
  | billing
deriving DecidableEq, Repr

/-- Read one slot of a `Contacts` aggregate. -/
def Contacts.getSlot (cts : Contacts) : ContactKind → Option Contact
  | .legal => cts.legal
  | .administrative => cts.administrative
  | .technical => cts.technical
  | .billing => cts.billing

/-- Replace one slot of a `Contacts` aggregate. -/
def Contacts.setSlot (cts : Contacts) (k : ContactKind) (c : Option Contact) : Contacts :=
  match k with
  | .legal => { cts with legal := c }
  | .administrative => { cts with administrative := c }
  | .technical => { cts with technical := c }
  | .billing => { cts with billing := c }

/-- Modelled from the spec (§4.3): the fixed contact iteration order
{legal, administrative, technical, billing} used by
`models.NewContactIterator` (the `models` package is not under the
available sources). -/
def contactOrder : List ContactKind :=
  [.legal, .administrative, .technical, .billing]

/-- One audit-log entry on a VASP (spec §4.4: `{previous, current, source,
reason}`; timestamps are not modelled). -/
structure AuditEntry where
  previousState : VerificationState
  currentState : VerificationState
  description : String
  source : String
deriving DecidableEq, Repr

/-- One audit-log entry on a CertificateRequest. -/
structure CertAuditEntry where
  previousState : CertificateRequestState
  currentState : CertificateRequestState
  description : String
  source : String
deriving DecidableEq, Repr

/-- A VASP record (spec §3), with the extra-data side tables as fields.
`adminVerificationToken = ""` means no token is set. -/
structure VASP where
  id : String
  registeredDirectory : String
  commonName : String
  trisaEndpoint : String
  website : String
  hasEntity : Bool
  entityCountry : String
  contacts : Contacts
  verificationStatus : VerificationState
  identityCertificate : Option String
  signingCertificates : List String
  verifiedOn : String
  auditLog : List AuditEntry
  adminVerificationToken : String
  certReqIDs : List String
  version : Nat
deriving DecidableEq, Repr

/-- A CertificateRequest record (spec §3). -/
structure CertificateRequest where
  id : String
  vasp : String
  commonName : String
  profile : String
  params : List (String × String)
  authorityId : Nat
  batchId : Nat
  orderNumber : Nat
  batchName : String
  batchStatus : String
  rejectReason : String
  creationDate : String
  certificate : String
  status : CertificateRequestState
  auditLog : List CertAuditEntry
deriving DecidableEq, Repr

/-! Section: `models` package helpers

The `models` package of this repository is not under the available sources;
the helpers below are modelled from the spec. -/

/-- Modelled from the spec (§4.4): `models.UpdateVerificationStatus` sets
the VASP verification status and appends one audit entry
`{previous, current, reason, actor}` ("state change iff audit entry",
spec §7). -/
def updateVerificationStatus (v : VASP) (s : VerificationState) (desc src : String) : VASP :=
  { v with
    verificationStatus := s,
    auditLog := v.auditLog ++ [⟨v.verificationStatus, s, desc, src⟩] }

/-- Modelled from the spec (§4.5, §7): `models.UpdateCertificateRequestStatus`
sets the request status and appends one audit entry. -/
def updateCertificateRequestStatus (r : CertificateRequest)
    (s : CertificateRequestState) (desc src : String) : CertificateRequest :=
  { r with
    status := s,
    auditLog := r.auditLog ++ [⟨r.status, s, desc, src⟩] }

/-- Modelled from the spec (§3, invariant 6): `models.GetContactVerification`
reads the `{token, verified}` extra data of a contact. -/
def getContactVerification (c : Contact) : String × Bool :=
  (c.token, c.verified)

/-- Modelled from the spec (§3, invariant 6): `models.SetContactVerification`
stores the `{token, verified}` extra data of a contact. -/
def setContactVerification (c : Contact) (token : String) (verified : Bool) : Contact :=
  { c with token := token, verified := verified }

/-- Modelled from the spec (§4.4): `models.SetAdminVerificationToken` stores
the admin-verification token in the VASP extra data. -/
def setAdminVerificationToken (v : VASP) (token : String) : VASP :=
  { v with adminVerificationToken := token }

/-- Modelled from the spec (§3): `models.AppendCertReqID` appends a
certificate-request id to the VASP `certificate-request-ids` extra list. -/
def appendCertReqID (v : VASP) (crid : String) : VASP :=
  { v with certReqIDs := v.certReqIDs ++ [crid] }

/-- Modelled from the spec (§3): `models.NewCertificateRequest` creates one
CertificateRequest for a VASP: fresh identifier, `VaspID` foreign key and
the VASP's common name; every other field starts at its protobuf zero
value (status `INITIALIZED` = 0). -/
def newCertificateRequest (v : VASP) (freshId : String) : CertificateRequest :=
  { id := freshId, vasp := v.id, commonName := v.commonName,
    profile := "", params := [], authorityId := 0, batchId := 0,
    orderNumber := 0, batchName := "", batchStatus := "", rejectReason := "",
    creationDate := "", certificate := "", status := .INITIALIZED, auditLog := [] }

/-! Section: Directory store and secret vault -/

/-- The directory store (spec §4.2): typed records with single-key writes.
Keyed list maps: at most one record per id once written through the
operations below. -/
structure Store where
  vasps : List VASP
  certreqs : List CertificateRequest
deriving DecidableEq, Repr

/-- `RetrieveVASP(id)`. -/
def Store.retrieveVASP (st : Store) (id : String) : Option VASP :=
  st.vasps.find? (fun v => v.id == id)

/-- `RetrieveCertReq(id)`. -/
def Store.retrieveCertReq (st : Store) (id : String) : Option CertificateRequest :=
  st.certreqs.find? (fun r => r.id == id)

/-- `SearchVASPs` restricted to the single-key `name` query Lookup and
Verification issue: all records whose indexed name (the common name)
equals the candidate. -/
def Store.searchVASPsByName (st : Store) (name : String) : List VASP :=
  st.vasps.filter (fun v => v.commonName == name)

/-- `CreateVASP`: assign the fresh id and write the record; fails when the
common-name uniqueness constraint is violated (spec §3, invariant 4). -/
def Store.createVASP (st : Store) (v : VASP) (freshId : String) :
    Except Unit (VASP × Store) :=
  if st.vasps.any (fun w => w.commonName == v.commonName) then .error ()
  else
    let v' := { v with id := freshId }
    .ok (v', { st with vasps := st.vasps.filter (fun w => w.id != freshId) ++ [v'] })

/-- `UpdateVASP`: keyed overwrite of an existing record. -/
def Store.updateVASP (st : Store) (v : VASP) : Option Store :=
  if st.vasps.any (fun w => w.id == v.id) then
    some { st with vasps := st.vasps.filter (fun w => w.id != v.id) ++ [v] }
  else none

/-- `UpdateCertReq`: keyed write (Register creates the request through this
call, so it writes whether or not the key exists). -/
def Store.updateCertReq (st : Store) (r : CertificateRequest) : Store :=
  { st with certreqs := st.certreqs.filter (fun q => q.id != r.id) ++ [r] }

/-- The secret vault (spec §4.1): versioned secrets in per-request scopes.
Entries are `((scope, name), versions)` with versions oldest first. -/
structure Vault where
  entries : List ((String × String) × List String)
deriving DecidableEq, Repr

/-- `Create(scope, name)`: idempotent creation of an empty secret. -/
def Vault.createSecret (vt : Vault) (scope name : String) : Vault :=
  if vt.entries.any (fun e => e.1 == (scope, name)) then vt
  else { entries := vt.entries ++ [((scope, name), [])] }

/-- `AddVersion(scope, name, bytes)`: append one version; fails when the
secret was never created. -/
def Vault.addSecretVersion (vt : Vault) (scope name payload : String) :
    Except Unit Vault :=
  if vt.entries.any (fun e => e.1 == (scope, name)) then
    let upd := fun (e : (String × String) × List String) =>
      if e.1 == (scope, name) then (e.1, e.2 ++ [payload]) else e
    .ok { entries := vt.entries.map upd }
  else .error ()

/-- `LatestVersion(scope, name)`: the last version, when one exists. -/
def Vault.latestVersion (vt : Vault) (scope name : String) : Option String :=
  match vt.entries.find? (fun e => e.1 == (scope, name)) with
  | none => none
  | some e => e.2.getLast?

/-! Section: Email courier (spec §4.3, modelled: the `emails` package is not
under the available sources) -/

/-- One outbound email: template name and recipient. -/
structure Email where
  template : String
  recipient : String
deriving DecidableEq, Repr

/-- Modelled from the spec (§4.3): `SendVerifyContacts` walks the contacts
in the fixed order, mails every contact that has an email address and is
not yet verified, and appends a send-log entry on each mailed contact. -/
def sendVerifyContacts (v : VASP) : VASP × List Email :=
  contactOrder.foldl
    (fun (acc : VASP × List Email) k =>
      match acc.1.contacts.getSlot k with
      | none => acc
      | some c =>
        if c.email != "" && !c.verified then
          let c' := some { c with sendLog := c.sendLog ++ ["verify_contact"] }
          ({ acc.1 with contacts := acc.1.contacts.setSlot k c' },
           acc.2 ++ [⟨"verify_contact", c.email⟩])
        else acc)
    (v, [])

/-- Modelled from the spec (§4.4, §6): `SendReviewRequest` mails the
admin-review request for a VASP to the TRISA admins. -/
def sendReviewRequest (_v : VASP) : List Email :=
  [⟨"review_request", "admins"⟩]

/-- Number of admin-review emails in an outbox. -/
def countReviewEmails (outbox : List Email) : Nat :=
  (outbox.filter (fun e => e.template == "review_request")).length

/-! Section: The world threaded through the handlers -/

/-- Mutable state visible to the handlers: the store, the vault, the sent
mail, and a counter seeding the deterministic token/id generator. -/
structure World where
  store : Store
  vault : Vault
  outbox : List Email
  ctr : Nat
deriving DecidableEq, Repr

/-- Draw one fresh token of `n` bytes from the deterministic generator. -/
def World.freshToken (w : World) (n : Nat) : String × World :=
  (createToken w.ctr n, { w with ctr := w.ctr + 1 })

/-- Draw one fresh identifier (stands in for a UUIDv4). -/
def World.freshId (w : World) : String × World :=
  ("id-" ++ createToken w.ctr 8, { w with ctr := w.ctr + 1 })

/-! Section: Register (`pkg/gds/gds.go`, `GDS.Register`) -/

/-- The inputs of a `RegisterRequest` the handler reads. -/
structure RegisterRequest where
  trisaEndpoint : String
  commonName : String
  website : String
  hasEntity : Bool
  entityCountry : String
  contacts : Contacts
deriving DecidableEq, Repr

/-- The `RegisterReply` fields the handler builds. -/
structure RegisterReply where
  id : String
  registeredDirectory : String
  commonName : String
  status : VerificationState
  message : String
  pkcs12Password : String
deriving DecidableEq, Repr

/-- The configured directory identifier (`conf.DirectoryID`). -/
def directoryID : String := "trisa.directory"

/-- Modelled from the dependency contract the spec describes (§4.4 inputs):
the external `pb.VASP.Validate(partial=true)` of the TRISA models package
(not part of this repository) performs presence checks on the entity, the
endpoint and the common name; it applies no grammar to the common name
(the `cnre` check lives in this repository's `ValidateCommonName` only). -/
def vaspValidate (v : VASP) : Bool :=
  v.hasEntity && v.trisaEndpoint != "" && v.commonName != ""

/-- Register step: set any all-zero contact to `nil` so empty records are
not created (gds.go lines 165-177). -/
def pruneZeroContacts (cts : Contacts) : Contacts :=
  let prune := fun (oc : Option Contact) =>
    match oc with
    | some c => if c.IsZero then none else some c
    | none => none
  { administrative := prune cts.administrative,
    technical := prune cts.technical,
    billing := prune cts.billing,
    legal := prune cts.legal }

/-- Embedding of `getContactEmail` (gds.go): the email of the first contact
the iterator yields, skipping contacts without email (iterator flags
`(true, false)`); `none` when no contact has an email. -/
def getContactEmail (v : VASP) : Option String :=
  (contactOrder.filterMap
    (fun k => match v.contacts.getSlot k with
      | some c => if c.email != "" then some c.email else none
      | none => none)).head?

/-- Register step (gds.go lines 209-216): assign a fresh 48-byte
verification token to every contact that has an email address. -/
def assignContactTokens (v : VASP) (w : World) : VASP × World :=
  contactOrder.foldl
    (fun (acc : VASP × World) k =>
      match acc.1.contacts.getSlot k with
      | none => acc
      | some c =>
        if c.email != "" then
          let (tok, w') := acc.2.freshToken 48
          let c' := some (setContactVerification c tok false)
          ({ acc.1 with contacts := acc.1.contacts.setSlot k c' }, w')
        else acc)
    (v, w)

/-- The fixed success message of `Register` (gds.go line 286). -/
def registerMessage : String :=
  "a verification code has been sent to contact emails, please check spam folder if it has not arrived; pkcs12 password attached, this is the only time it will be available -- do not lose!"

/-- Embedding of `GDS.Register` (gds.go lines 114-290).  Validation errors
return before any write; the store, vault and outbox are threaded
explicitly; email transport always succeeds in this model (failures are
non-fatal in the source). -/
def Register (req : RegisterRequest) (w : World) :
    Except Err RegisterReply × World :=
  let vasp0 : VASP :=
    { id := "", registeredDirectory := directoryID,
      commonName := req.commonName, trisaEndpoint := req.trisaEndpoint,
      website := req.website, hasEntity := req.hasEntity,
      entityCountry := req.entityCountry, contacts := req.contacts,
      verificationStatus := .NO_VERIFICATION, identityCertificate := none,
      signingCertificates := [], verifiedOn := "", auditLog := [],
      adminVerificationToken := "", certReqIDs := [], version := 1 }
  if req.trisaEndpoint = "" then
    (.error ⟨.InvalidArgument, "no endpoint supplied"⟩, w)
  else
    match validateEndpoint req.trisaEndpoint with
    | .error _ => (.error ⟨.InvalidArgument, "invalid endpoint supplied"⟩, w)
    | .ok _ =>
      let cnRes : Except Err String :=
        if req.commonName = "" then
          match splitHostPort req.trisaEndpoint with
          | .error _ => .error ⟨.InvalidArgument,
              "no common name supplied, could not parse common name from endpoint"⟩
          | .ok hp => .ok hp.1
        else
          match ValidateCommonName req.commonName with
          | .error _ => .error ⟨.InvalidArgument, "invalid common name supplied"⟩
          | .ok _ => .ok req.commonName
      match cnRes with
      | .error e => (.error e, w)
      | .ok cn =>
        let vasp1 := { vasp0 with commonName := cn }
        if !vaspValidate vasp1 then
          (.error ⟨.InvalidArgument, "validation error"⟩, w)
        else
          let vasp2 := { vasp1 with contacts := pruneZeroContacts vasp1.contacts }
          match getContactEmail vasp2 with
          | none =>
            (.error ⟨.InvalidArgument, "no email address in supplied VASP contacts"⟩, w)
          | some email =>
            let vasp3 := updateVerificationStatus vasp2 .SUBMITTED
              "register request recevied" email
            let (vaspId, w1) := w.freshId
            match w1.store.createVASP vasp3 vaspId with
            | .error _ =>
              (.error ⟨.AlreadyExists,
                "could not complete registration, uniqueness constraints violated"⟩, w)
            | .ok (vasp4, st1) =>
              let w2 := { w1 with store := st1 }
              let (vasp5, w3) := assignContactTokens vasp4 w2
              match w3.store.updateVASP vasp5 with
              | none =>
                (.error ⟨.Aborted, "could not send contact verification emails"⟩, w3)
              | some st2 =>
                let w4 := { w3 with store := st2 }
                let (vasp6, mails) := sendVerifyContacts vasp5
                match w4.store.updateVASP vasp6 with
                | none => (.error ⟨.Aborted, "could not update vasp record"⟩, w4)
                | some st3 =>
                  let w5 := { w4 with store := st3, outbox := w4.outbox ++ mails }
                  let (password, w6) := w5.freshToken 16
                  let (crId, w7) := w6.freshId
                  let cr0 := newCertificateRequest vasp6 crId
                  let cr1 := updateCertificateRequestStatus cr0 .INITIALIZED
                    "created certificate request" email
                  let vt1 := w7.vault.createSecret cr1.id "password"
                  match vt1.addSecretVersion cr1.id "password" password with
                  | .error _ =>
                    (.error ⟨.Internal,
                      "internal error with registration, please contact admins"⟩, w7)
                  | .ok vt2 =>
                    let w8 := { w7 with vault := vt2 }
                    let st4 := w8.store.updateCertReq cr1
                    let vasp7 := appendCertReqID vasp6 cr1.id
                    match st4.updateVASP vasp7 with
                    | none =>
                      (.error ⟨.Internal,
                        "internal error with registration, please contact admins"⟩,
                       { w8 with store := st4 })
                    | some st5 =>
                      let w9 := { w8 with store := st5 }
                      (.ok { id := vasp7.id,
                             registeredDirectory := vasp7.registeredDirectory,
                             commonName := vasp7.commonName,
                             status := vasp7.verificationStatus,
                             message := registerMessage,
                             pkcs12Password := password }, w9)

/-! Section: Lookup (`pkg/gds/gds.go`, `GDS.Lookup`) -/

/-- The `LookupReply` fields the handler builds. -/
structure LookupReply where
  id : String
  registeredDirectory : String
  commonName : String
  endpoint : String
  identityCertificate : Option String
  country : String
  verifiedOn : String
  signingCertificate : Option String
deriving DecidableEq, Repr

/-- Build the reply for a found VASP (gds.go lines 327-345). -/
def mkLookupReply (v : VASP) : LookupReply :=
  { id := v.id, registeredDirectory := v.registeredDirectory,
    commonName := v.commonName, endpoint := v.trisaEndpoint,
    identityCertificate := v.identityCertificate,
    country := v.entityCountry, verifiedOn := v.verifiedOn,
    signingCertificate := v.signingCertificates.getLast? }

/-- Embedding of `GDS.Lookup` (gds.go lines 294-349): lookup by id when one
is supplied, else by common name, which succeeds exactly when the store
search returns a single record. -/
def Lookup (inId inCommonName : String) (st : Store) : Except Err LookupReply :=
  if inId != "" then
    match st.retrieveVASP inId with
    | none => .error ⟨.NotFound, "could not find VASP by ID"⟩
    | some v => .ok (mkLookupReply v)
  else if inCommonName != "" then
    match st.searchVASPsByName inCommonName with
    | [v] => .ok (mkLookupReply v)
    | _ => .error ⟨.NotFound, "could not find VASP by common name"⟩
  else
    .error ⟨.InvalidArgument,
      "please supply ID and registered directory or common name for lookup"⟩

/-! Section: VerifyContact (`pkg/gds/gds.go`, `GDS.VerifyContact`) -/

/-- The `VerifyContactReply` fields the handler builds. -/
structure VerifyContactReply where
  status : VerificationState
  message : String
deriving DecidableEq, Repr

/-- One iteration of the VerifyContact contact loop (gds.go lines 464-495):
on a token match, clear the token, mark verified and append the
"contact verified" audit self-entry; otherwise count previously verified
contacts.  The accumulator is (vasp, found, prevVerified, contactEmail). -/
def scanSlot (token : String) (acc : VASP × Bool × Nat × String)
    (k : ContactKind) : VASP × Bool × Nat × String :=
  let (v, found, prev, em) := acc
  match v.contacts.getSlot k with
  | none => acc
  | some c =>
    if c.token == token then
      let c' := setContactVerification c "" true
      let v' := { v with contacts := v.contacts.setSlot k (some c') }
      (updateVerificationStatus v' v'.verificationStatus "contact verified" c.email,
       true, prev, c.email)
    else if c.verified then (v, found, prev + 1, em)
    else acc

/-- The VerifyContact contact loop over the four slots in iterator order. -/
def scanContacts (token : String) (v : VASP) : VASP × Bool × Nat × String :=
  scanSlot token (scanSlot token (scanSlot token (scanSlot token
    (v, false, 0, "") .legal) .administrative) .technical) .billing

/-- Embedding of `GDS.VerifyContact` (gds.go lines 446-567). -/
def VerifyContact (inId inToken : String) (w : World) :
    Except Err VerifyContactReply × World :=
  if inToken = "" then
    (.error ⟨.InvalidArgument,
      "could not verify contact: verification token missing from request"⟩, w)
  else
    match w.store.retrieveVASP inId with
    | none => (.error ⟨.NotFound, "could not find associated VASP record by ID"⟩, w)
    | some vasp =>
      let scanned := scanContacts inToken vasp
      let v1 := scanned.1
      let found := scanned.2.1
      let prevVerified := scanned.2.2.1
      let contactEmail := scanned.2.2.2
      if !found then
        (.error ⟨.NotFound, "could not find contact with the specified token"⟩, w)
      else if prevVerified > 0 &&
          VerificationState.toNat v1.verificationStatus >
            VerificationState.toNat .SUBMITTED then
        match w.store.updateVASP v1 with
        | none =>
          (.error ⟨.Internal, "could not update contact after verification"⟩, w)
        | some st1 =>
          (.ok ⟨v1.verificationStatus, "email successfully verified"⟩,
           { w with store := st1 })
      else
        let v2 := updateVerificationStatus v1 .EMAIL_VERIFIED
          "completed email verification" contactEmail
        let (tok48, w1) := w.freshToken 48
        let v3 := setAdminVerificationToken v2 tok48
        match w1.store.updateVASP v3 with
        | none =>
          (.error ⟨.FailedPrecondition,
            "there was a problem submitting your registration review request, please contact the admins"⟩, w1)
        | some st1 =>
          let box2 := w1.outbox ++ sendReviewRequest v3
          let w2 := { w1 with store := st1, outbox := box2 }
          let v4 := updateVerificationStatus v3 .PENDING_REVIEW
            "review email sent" contactEmail
          match w2.store.updateVASP v4 with
          | none =>
            (.error ⟨.Internal,
              "there was a problem submitting your registration review request, please contact the admins"⟩, w2)
          | some st2 =>
            (.ok ⟨v4.verificationStatus,
              "email successfully verified and verification review sent to TRISA admins"⟩,
             { w2 with store := st2 })

/-! Section: Certificate Manager tick (modelled from the spec)

The Certificate Manager source is not among the available sources; only its
test suite (`pkg/gds/certs_test.go`) is.  The per-tick evaluation policy
below is modelled from spec §4.5.2/§4.5.3 and corroborated by those tests. -/

/-- CA batch status alphabet observed by the core (spec §4.5.1). -/
inductive CABatchStatus where
  | READY_FOR_DOWNLOAD
  | REJECTED
  | NOT_ACCEPTABLE
  | OTHER
deriving DecidableEq, Repr

/-- Successful `Batch` submission data copied onto the request. -/
structure BatchInfo where
  batchId : Nat
  orderNumber : Nat
  creationDate : String
  status : String
deriving DecidableEq, Repr

/-- The external CA client (spec §4.5.1), as the deterministic responses it
gives during one tick; `Except.error` is a transport failure. -/
structure CAClient where
  availableBalance : Int
  batchResult : Except Unit BatchInfo
  processingActive : Nat
  processingSuccess : Nat
  processingFailed : Nat
  processingInfoOk : Bool
  batchDetailStatus : Except Unit CABatchStatus
deriving DecidableEq, Repr

/-- The CA calls a tick can perform, in order. -/
inductive CACall where
  | balance
  | batch
  | processingInfo
  | batchDetail
deriving DecidableEq, Repr

/-- What one Certificate Manager tick produced for one request. -/
structure TickResult where
  req : CertificateRequest
  vasp : VASP
  calls : List CACall
  emails : List Email
deriving DecidableEq, Repr

/-- True when the VASP state permits certificate submission
(spec §4.5.2: {REVIEWED, ISSUING_CERTIFICATE, VERIFIED}). -/
def submissionEligible (s : VerificationState) : Bool :=
  s == .REVIEWED || s == .ISSUING_CERTIFICATE || s == .VERIFIED

/-- Modelled from the spec (§4.5.2, READY_TO_SUBMIT policy): pre-gate the
VASP state; else ensure the VASP is in ISSUING_CERTIFICATE (transition
REVIEWED → ISSUING_CERTIFICATE once); require a stored password and a
positive CA balance, leaving the request retryable otherwise; then submit
the batch, copying the CA data onto the request and moving it to
PROCESSING. -/
def submitReady (ca : CAClient) (vt : Vault)
    (req : CertificateRequest) (vasp : VASP) : TickResult :=
  if !submissionEligible vasp.verificationStatus then
    { req := updateCertificateRequestStatus req .CR_REJECTED
        "vasp not in valid state for submission" "automated",
      vasp := vasp, calls := [], emails := [] }
  else
    let vasp1 :=
      if vasp.verificationStatus == .REVIEWED then
        updateVerificationStatus vasp .ISSUING_CERTIFICATE
          "issuing certificate" "automated"
      else vasp
    match vt.latestVersion req.id "password" with
    | none => { req := req, vasp := vasp1, calls := [], emails := [] }
    | some _ =>
      if ca.availableBalance ≤ 0 then
        { req := req, vasp := vasp1, calls := [.balance], emails := [] }
      else
        match ca.batchResult with
        | .error _ =>
          { req := req, vasp := vasp1, calls := [.balance, .batch], emails := [] }
        | .ok info =>
          let req1 := { req with
            batchId := info.batchId,
            orderNumber := info.orderNumber,
            creationDate := info.creationDate,
            batchStatus := info.status }
          { req := updateCertificateRequestStatus req1 .PROCESSING
              "certificate request submitted" "automated",
            vasp := vasp1, calls := [.balance, .batch], emails := [] }

/-- Modelled from the spec (§4.5.2, PROCESSING policy; §4.5.3): poll
`BatchProcessingInfo`; while the batch is active remain in PROCESSING
(audit self-transition); when it failed with no success consult
`BatchDetail`: REJECTED → CR_REJECTED with a rejection email and no VASP
demotion, NOT_ACCEPTABLE → CR_ERRORED; when it succeeded → DOWNLOADING;
transport errors leave the state unchanged. -/
def processProcessing (ca : CAClient)
    (req : CertificateRequest) (vasp : VASP) : TickResult :=
  if !ca.processingInfoOk then
    { req := req, vasp := vasp, calls := [.processingInfo], emails := [] }
  else if ca.processingActive > 0 then
    { req := updateCertificateRequestStatus req .PROCESSING
        "batch still processing" "automated",
      vasp := vasp, calls := [.processingInfo], emails := [] }
  else if ca.processingFailed > 0 && ca.processingSuccess == 0 then
    match ca.batchDetailStatus with
    | .error _ =>
      { req := req, vasp := vasp, calls := [.processingInfo, .batchDetail],
        emails := [] }
    | .ok .REJECTED =>
      { req := updateCertificateRequestStatus req .CR_REJECTED
          "batch rejected" "automated",
        vasp := vasp, calls := [.processingInfo, .batchDetail],
        emails := [⟨"rejection", "contacts"⟩] }
    | .ok .NOT_ACCEPTABLE =>
      { req := updateCertificateRequestStatus req .CR_ERRORED
          "batch not acceptable" "automated",
        vasp := vasp, calls := [.processingInfo, .batchDetail], emails := [] }
    | .ok _ =>
      { req := req, vasp := vasp, calls := [.processingInfo, .batchDetail],
        emails := [] }
  else if ca.processingSuccess > 0 then
    { req := updateCertificateRequestStatus req .DOWNLOADING
        "batch ready for download" "automated",
      vasp := vasp, calls := [.processingInfo], emails := [] }
  else
    { req := updateCertificateRequestStatus req .PROCESSING
        "batch in unhandled state" "automated",
      vasp := vasp, calls := [.processingInfo], emails := [] }

/-- Modelled from the spec (§4.5.2): the submission and processing steps of
one Certificate Manager tick for one request, dispatched on the request
status.  The DOWNLOADING commit step is outside the claims verified here
and is left as the identity. -/
def certmanTick (ca : CAClient) (vt : Vault)
    (req : CertificateRequest) (vasp : VASP) : TickResult :=
  match req.status with
  | .READY_TO_SUBMIT => submitReady ca vt req vasp
  | .PROCESSING => processProcessing ca req vasp
  | _ => { req := req, vasp := vasp, calls := [], emails := [] }

/-! Section: Shared fixtures for concrete evaluations -/

/-- A legal contact with an email and no verification state yet. -/
def demoContactLegal : Contact :=
  { name := "Jane Doe", email := "a@x.io", phone := "",
    token := "", verified := false, sendLog := [] }

/-- Contacts aggregate carrying only the legal contact. -/
def demoContacts : Contacts :=
  { administrative := none, technical := none, billing := none,
    legal := some demoContactLegal }

/-- A well-formed registration request (spec scenario S1). -/
def demoReq : RegisterRequest :=
  { trisaEndpoint := "trisa.example.com:443", commonName := "trisa.example.com",
    website := "", hasEntity := true, entityCountry := "US",
    contacts := demoContacts }

/-- A registration request with no common name and a wildcard endpoint host
(spec scenario S5 shape, but with the name left to be derived). -/
def wildReq : RegisterRequest :=
  { trisaEndpoint := "*.example.com:443", commonName := "",
    website := "", hasEntity := true, entityCountry := "US",
    contacts := demoContacts }

/-- The empty world every concrete run starts from. -/
def emptyWorld : World :=
  { store := { vasps := [], certreqs := [] }, vault := { entries := [] },
    outbox := [], ctr := 0 }

/-! Section: Helper lemmas on the keyed stores -/

theorem find?_filter_ne_append {α : Type} (l : List α) (key : α → Bool) (v : α)
    (hv : key v = true) :
    ((l.filter fun x => !key x) ++ [v]).find? key = some v := by
  induction l with
  | nil => simp [List.find?, hv]
  | cons a t ih =>
    by_cases h : key a = true
    · simp [List.filter_cons, h, ih]
    · rw [Bool.not_eq_true] at h
      simp [List.filter_cons, h, List.find?, ih]

theorem filter_ne_append_filter {α : Type} (l : List α) (key : α → Bool) (v : α)
    (hv : key v = true) :
    ((l.filter fun x => !key x) ++ [v]).filter (fun x => !key x) =
      l.filter fun x => !key x := by
  rw [List.filter_append, List.filter_filter]
  simp [hv, List.filter_eq_self]

theorem find?_of_any {α : Type} (l : List α) (p : α → Bool) (h : l.any p = true) :
    ∃ e, l.find? p = some e ∧ p e = true := by
  induction l with
  | nil => simp at h
  | cons a t ih =>
    by_cases ha : p a = true
    · exact ⟨a, by simp [List.find?, ha], ha⟩
    · rw [Bool.not_eq_true] at ha
      rw [List.any_cons, ha, Bool.false_or] at h
      obtain ⟨e, he, hpe⟩ := ih h
      exact ⟨e, by simp [List.find?, ha, he], hpe⟩

/-- Creating a secret then adding a version always succeeds and makes the
new version the latest one. -/
theorem vault_create_add_latest (vt : Vault) (s n p : String) :
    ∃ vt', (vt.createSecret s n).addSecretVersion s n p = .ok vt' ∧
      vt'.latestVersion s n = some p := by
  have hany : ((vt.createSecret s n).entries.any (fun e => e.1 == (s, n))) = true := by
    unfold Vault.createSecret
    split
    · assumption
    · simp
  have hadd : (vt.createSecret s n).addSecretVersion s n p =
      .ok ⟨(vt.createSecret s n).entries.map
        (fun e => if e.1 == (s, n) then (e.1, e.2 ++ [p]) else e)⟩ := by
    unfold Vault.addSecretVersion
    simp [hany]
  refine ⟨_, hadd, ?_⟩
  · simp only [Vault.latestVersion]
    rw [List.find?_map]
    obtain ⟨e, hfe, hke⟩ := find?_of_any _ _ hany
    have hcomp : (fun x => x.1 == (s, n)) ∘
        (fun e => if e.1 == (s, n) then (e.1, e.2 ++ [p]) else e) =
        fun x => x.1 == ((s, n) : String × String) := by
      funext x
      by_cases hx : x.1 = (s, n) <;> simp [hx]
    rw [hcomp, hfe]
    have hke' : e.1 = (s, n) := by simpa using hke
    simp [hke', List.getLast?_concat]

/-! Section: Further concrete fixtures for the Certificate Manager claims -/

/-- A registered VASP record used as the base of Certificate Manager
fixtures. -/
def demoVaspBase : VASP :=
  { id := "vasp-1", registeredDirectory := directoryID,
    commonName := "trisa.example.com", trisaEndpoint := "trisa.example.com:443",
    website := "", hasEntity := true, entityCountry := "US",
    contacts := demoContacts, verificationStatus := .SUBMITTED,
    identityCertificate := none, signingCertificates := [], verifiedOn := "",
    auditLog := [], adminVerificationToken := "", certReqIDs := ["cr-1"],
    version := 1 }

/-- A VASP stuck in PENDING_REVIEW (spec scenario S3). -/
def demoVaspPending : VASP :=
  { demoVaspBase with verificationStatus := .PENDING_REVIEW }

/-- A VASP in ISSUING_CERTIFICATE. -/
def demoVaspIssuing : VASP :=
  { demoVaspBase with verificationStatus := .ISSUING_CERTIFICATE }

/-- A certificate request ready for submission. -/
def demoCertReqRTS : CertificateRequest :=
  { id := "cr-1", vasp := "vasp-1", commonName := "trisa.example.com",
    profile := "CipherTraceEE", params := [], authorityId := 1, batchId := 0,
    orderNumber := 0, batchName := "", batchStatus := "", rejectReason := "",
    creationDate := "", certificate := "", status := .READY_TO_SUBMIT,
    auditLog := [] }

/-- The same request once submitted and PROCESSING at the CA. -/
def demoCertReqProc : CertificateRequest :=
  { demoCertReqRTS with status := .PROCESSING, batchId := 42 }

/-- A healthy CA client with available balance. -/
def demoCA : CAClient :=
  { availableBalance := 2, batchResult := .ok ⟨42, 7, "2024-01-01T00:00:00Z", "CREATED"⟩,
    processingActive := 1, processingSuccess := 0, processingFailed := 0,
    processingInfoOk := true, batchDetailStatus := .ok .OTHER }

/-- The CA with an exhausted balance (spec scenario S2). -/
def demoCAZero : CAClient :=
  { demoCA with availableBalance := 0 }

/-- The CA reporting the batch failed and rejected (spec scenario S4). -/
def demoCAReject : CAClient :=
  { demoCA with
    processingActive := 0,
    processingFailed := 1,
    batchDetailStatus := .ok .REJECTED }

/-- A vault holding the PKCS#12 password of `demoCertReqRTS`. -/
def demoVault : Vault :=
  { entries := [(("cr-1", "password"), ["CAAAAAAAAAAAAAAA"])] }

/-! Section: Claims C3, C4, C5: Certificate Manager ticks -/

/-- Claim C3: For every Certificate Manager tick on a CertificateRequest in
READY_TO_SUBMIT whose VASP verification state is not in {REVIEWED,
ISSUING_CERTIFICATE, VERIFIED} (for example PENDING_REVIEW or REJECTED),
the request transitions to CR_REJECTED with the reason "vasp not in valid
state for submission", and no CA call (in particular no Batch submission)
is performed for that request. -/
theorem certman_badstate_rejected_no_ca_call
    (ca : CAClient) (vt : Vault) (req : CertificateRequest) (vasp : VASP)
    (hreq : req.status = .READY_TO_SUBMIT)
    (h1 : vasp.verificationStatus ≠ .REVIEWED)
    (h2 : vasp.verificationStatus ≠ .ISSUING_CERTIFICATE)
    (h3 : vasp.verificationStatus ≠ .VERIFIED) :
    (certmanTick ca vt req vasp).req.status = .CR_REJECTED ∧
    (certmanTick ca vt req vasp).req.auditLog.getLast? =
      some ⟨.READY_TO_SUBMIT, .CR_REJECTED,
        "vasp not in valid state for submission", "automated"⟩ ∧
    (certmanTick ca vt req vasp).calls = [] := by
  have hel : submissionEligible vasp.verificationStatus = false := by
    unfold submissionEligible
    simp [h1, h2, h3]
  unfold certmanTick
  rw [hreq]
  unfold submitReady
  rw [hel]
  simp [updateCertificateRequestStatus, hreq, List.getLast?_concat]

/-- Witness for C3: one tick on `demoCertReqRTS` with the VASP forced to
PENDING_REVIEW (spec scenario S3). -/
theorem certman_badstate_rejected_no_ca_call_witness :
    demoCertReqRTS.status = .READY_TO_SUBMIT ∧
    demoVaspPending.verificationStatus ≠ .REVIEWED ∧
    ((certmanTick demoCA demoVault demoCertReqRTS demoVaspPending).req.status
      = .CR_REJECTED ∧
     (certmanTick demoCA demoVault demoCertReqRTS demoVaspPending).req.auditLog.getLast? =
      some ⟨.READY_TO_SUBMIT, .CR_REJECTED,
        "vasp not in valid state for submission", "automated"⟩ ∧
     (certmanTick demoCA demoVault demoCertReqRTS demoVaspPending).calls = []) :=
  ⟨by decide, by decide,
   certman_badstate_rejected_no_ca_call demoCA demoVault demoCertReqRTS
     demoVaspPending (by decide) (by decide) (by decide) (by decide)⟩

/-- Claim C4 counterexample: The claim quantifies over every tick on a
READY_TO_SUBMIT request with zero CA balance, but when the VASP is in
PENDING_REVIEW the pre-gate fires first and the request does not stay in
READY_TO_SUBMIT: it is rejected. -/
theorem certman_zero_balance_cex :
    demoCAZero.availableBalance = 0 ∧
    demoCertReqRTS.status = .READY_TO_SUBMIT ∧
    (certmanTick demoCAZero demoVault demoCertReqRTS demoVaspPending).req.status
      = .CR_REJECTED ∧
    CertificateRequestState.CR_REJECTED ≠ CertificateRequestState.READY_TO_SUBMIT := by
  exact ⟨by decide, by decide, by decide, by decide⟩

/-- Claim C4 (amended): For every Certificate Manager tick on a
CertificateRequest in READY_TO_SUBMIT whose VASP is submission-eligible
(REVIEWED, ISSUING_CERTIFICATE or VERIFIED), when the CA's available
balance is 0 the request is completely unchanged and the VASP record is
unchanged except that a REVIEWED VASP transitions to ISSUING_CERTIFICATE
exactly once (one audit entry); a VASP not in REVIEWED (in particular one
already in ISSUING_CERTIFICATE) is unchanged and its audit log gains no
entry. -/
theorem certman_zero_balance_frame
    (ca : CAClient) (vt : Vault) (req : CertificateRequest) (vasp : VASP)
    (hreq : req.status = .READY_TO_SUBMIT)
    (hel : vasp.verificationStatus = .REVIEWED ∨
      vasp.verificationStatus = .ISSUING_CERTIFICATE ∨
      vasp.verificationStatus = .VERIFIED)
    (hbal : ca.availableBalance = 0) :
    (certmanTick ca vt req vasp).req = req ∧
    (vasp.verificationStatus = .REVIEWED →
      (certmanTick ca vt req vasp).vasp =
        updateVerificationStatus vasp .ISSUING_CERTIFICATE
          "issuing certificate" "automated" ∧
      (certmanTick ca vt req vasp).vasp.auditLog.length
        = vasp.auditLog.length + 1) ∧
    (vasp.verificationStatus ≠ .REVIEWED →
      (certmanTick ca vt req vasp).vasp = vasp) := by
  have heli : submissionEligible vasp.verificationStatus = true := by
    rcases hel with h | h | h <;> simp [submissionEligible, h]
  unfold certmanTick
  rw [hreq]
  unfold submitReady
  rw [heli]
  have hble : ca.availableBalance ≤ 0 := le_of_eq hbal
  rcases hlv : vt.latestVersion req.id "password" with _ | pw <;>
    by_cases hR : vasp.verificationStatus = .REVIEWED <;>
      simp [hR, hble, updateVerificationStatus]

/-- Witness for C4 (amended): a zero-balance tick on a VASP already in
ISSUING_CERTIFICATE leaves the request and VASP untouched. -/
theorem certman_zero_balance_frame_witness :
    demoCertReqRTS.status = .READY_TO_SUBMIT ∧
    demoCAZero.availableBalance = 0 ∧
    ((certmanTick demoCAZero demoVault demoCertReqRTS demoVaspIssuing).req
      = demoCertReqRTS ∧
     (certmanTick demoCAZero demoVault demoCertReqRTS demoVaspIssuing).vasp
      = demoVaspIssuing) :=
  ⟨by decide, by decide,
   ⟨(certman_zero_balance_frame demoCAZero demoVault demoCertReqRTS demoVaspIssuing
      (by decide) (Or.inr (Or.inl (by decide))) (by decide)).1,
    (certman_zero_balance_frame demoCAZero demoVault demoCertReqRTS demoVaspIssuing
      (by decide) (Or.inr (Or.inl (by decide))) (by decide)).2.2 (by decide)⟩⟩

/-- Claim C5: For every Certificate Manager tick on a CertificateRequest in
PROCESSING where the CA reports the batch failed (failed > 0, success = 0,
active = 0) with batch-detail status REJECTED, the request transitions to
CR_REJECTED with an audit entry PROCESSING → CR_REJECTED attributed to
"automated", and the VASP record is untouched: its verification status is
not demoted and an ISSUING_CERTIFICATE VASP remains ISSUING_CERTIFICATE. -/
theorem certman_processing_rejected
    (ca : CAClient) (vt : Vault) (req : CertificateRequest) (vasp : VASP)
    (hreq : req.status = .PROCESSING)
    (hok : ca.processingInfoOk = true)
    (hact : ca.processingActive = 0)
    (hsuc : ca.processingSuccess = 0)
    (hfail : 0 < ca.processingFailed)
    (hdet : ca.batchDetailStatus = .ok .REJECTED) :
    (certmanTick ca vt req vasp).req.status = .CR_REJECTED ∧
    (certmanTick ca vt req vasp).req.auditLog.getLast? =
      some ⟨.PROCESSING, .CR_REJECTED, "batch rejected", "automated"⟩ ∧
    (certmanTick ca vt req vasp).vasp = vasp ∧
    (vasp.verificationStatus = .ISSUING_CERTIFICATE →
      (certmanTick ca vt req vasp).vasp.verificationStatus
        = .ISSUING_CERTIFICATE) := by
  unfold certmanTick
  rw [hreq]
  unfold processProcessing
  rw [hok, hact, hsuc, hdet]
  simp [hfail, updateCertificateRequestStatus, hreq, List.getLast?_concat]

/-- Witness for C5: spec scenario S4 on the PROCESSING fixture. -/
theorem certman_processing_rejected_witness :
    demoCertReqProc.status = .PROCESSING ∧
    demoCAReject.batchDetailStatus = .ok .REJECTED ∧
    ((certmanTick demoCAReject demoVault demoCertReqProc demoVaspIssuing).req.status
      = .CR_REJECTED ∧
     (certmanTick demoCAReject demoVault demoCertReqProc demoVaspIssuing).vasp
      = demoVaspIssuing) :=
  ⟨by decide, by decide,
   ⟨(certman_processing_rejected demoCAReject demoVault demoCertReqProc demoVaspIssuing
      (by decide) (by decide) (by decide) (by decide) (by decide) (by decide)).1,
    (certman_processing_rejected demoCAReject demoVault demoCertReqProc demoVaspIssuing
      (by decide) (by decide) (by decide) (by decide) (by decide) (by decide)).2.2.1⟩⟩

/-! Section: Claim C9: Lookup by common name -/

/-- Claim C9: For every Lookup request that supplies a common name and no id,
Lookup succeeds exactly when the store's common-name search returns one
record; zero or two-or-more matches fail with NOT_FOUND, so a duplicated
common name is indistinguishable from an absent one at this interface. -/
theorem lookup_common_name_single_match (st : Store) (cn : String)
    (hcn : cn ≠ "") :
    ((st.searchVASPsByName cn).length = 1 → (Lookup "" cn st).isOk = true) ∧
    ((st.searchVASPsByName cn).length ≠ 1 →
      Lookup "" cn st = .error ⟨.NotFound, "could not find VASP by common name"⟩) := by
  unfold Lookup
  have h0 : (("" : String) != "") = false := by decide
  have h1 : (cn != "") = true := by simpa using hcn
  rw [h0, h1]
  simp only [Bool.false_eq_true, if_false, if_true]
  rcases hls : st.searchVASPsByName cn with _ | ⟨v, _ | ⟨v2, t⟩⟩
  · refine ⟨fun h => by simp at h, fun _ => rfl⟩
  · refine ⟨fun _ => rfl, fun h => absurd rfl h⟩
  · refine ⟨fun h => by simp at h, fun _ => rfl⟩

/-- A store holding two VASPs with the same common name. -/
def dupStore : Store :=
  { vasps := [{ demoVaspBase with id := "vasp-a", commonName := "dup.example.com" },
              { demoVaspBase with id := "vasp-b", commonName := "dup.example.com" }],
    certreqs := [] }

/-- Witness for C9: a duplicated common name yields NOT_FOUND. -/
theorem lookup_common_name_single_match_witness :
    (dupStore.searchVASPsByName "dup.example.com").length = 2 ∧
    Lookup "" "dup.example.com" dupStore =
      .error ⟨.NotFound, "could not find VASP by common name"⟩ :=
  ⟨by decide,
   (lookup_common_name_single_match dupStore "dup.example.com" (by decide)).2
     (by decide)⟩

/-! Section: Claim C10: endpoint validation -/

/-- The exact acceptance condition of `validateEndpoint`: host:port split
succeeds, host and port are non-empty, and the port parses as a signed
integer (`strconv.Atoi`), with no range restriction. -/
def endpointAccepted (e : String) : Prop :=
  match splitHostPort e with
  | .error _ => False
  | .ok hp => hp.1 ≠ "" ∧ hp.2 ≠ "" ∧ (goAtoi hp.2).isOk = true

/-- Claim C10: Register's endpoint validation accepts exactly the endpoints
whose host:port split succeeds with non-empty host, non-empty port, and a
port `strconv.Atoi` parses as a signed integer; there is no range check,
so ports outside 1-65535 such as "-1" and "99999" are accepted, and only
split failures, empty hosts, empty ports and non-integer ports are
rejected. -/
theorem validate_endpoint_no_port_range :
    (∀ e, validateEndpoint e = .ok () ↔ endpointAccepted e) ∧
    validateEndpoint "example.com:-1" = .ok () ∧
    validateEndpoint "example.com:99999" = .ok () ∧
    validateEndpoint "example.com" = .error "unable to parse endpoint string" ∧
    validateEndpoint ":443" = .error "missing host in endpoint string" ∧
    validateEndpoint "example.com:" = .error "missing port in endpoint string" ∧
    validateEndpoint "example.com:http" = .error "endpoint port is not an integer" := by
  refine ⟨?_, by decide, by decide, by decide, by decide, by decide, by decide⟩
  intro e
  unfold validateEndpoint endpointAccepted
  rcases h : splitHostPort e with err | hp
  · simp
  · obtain ⟨host, port⟩ := hp
    by_cases hh : host = ""
    · simp [hh]
    · by_cases hp2 : port = ""
      · simp [hh, hp2]
      · rcases ha : goAtoi port with e2 | n <;>
          simp [hh, hp2, ha, Except.isOk, Except.toBool]

/-! Section: Claim C6: common name validation in Register -/

/-- The gRPC status code of a handler outcome. -/
def errCodeOf {α : Type} (r : Except Err α) : Option ErrCode :=
  match r with
  | .error e => some e.code
  | .ok _ => none

/-- Claim C6 (amended): Only a supplied common name is validated: for every
Register call whose request carries a non-empty common name that fails
`ValidateCommonName` (wildcard or DNS-grammar violation), Register returns
INVALID_ARGUMENT and leaves the world — in particular the VASP store —
unchanged. -/
theorem register_supplied_cn_invalid_rejected (req : RegisterRequest)
    (w : World) (msg : String)
    (hcn : req.commonName ≠ "")
    (hbad : ValidateCommonName req.commonName = .error msg) :
    errCodeOf (Register req w).1 = some .InvalidArgument ∧
    (Register req w).2 = w := by
  unfold Register
  by_cases he : req.trisaEndpoint = ""
  · simp [he, errCodeOf]
  · rcases hve : validateEndpoint req.trisaEndpoint with e1 | u
    · simp [he, hve, errCodeOf]
    · simp [he, hve, hcn, hbad, errCodeOf]

/-- Witness for C6 (amended): the spec S5 registration with the explicit
wildcard common name is rejected without a write. -/
theorem register_supplied_cn_invalid_rejected_witness :
    ({ demoReq with commonName := "*.example.com" } : RegisterRequest).commonName ≠ "" ∧
    (errCodeOf (Register { demoReq with commonName := "*.example.com" } emptyWorld).1
      = some .InvalidArgument ∧
     (Register { demoReq with commonName := "*.example.com" } emptyWorld).2
      = emptyWorld) :=
  ⟨by decide,
   register_supplied_cn_invalid_rejected
     { demoReq with commonName := "*.example.com" } emptyWorld
     "wildcards are not allowed in TRISA common names" (by decide) (by decide)⟩

/-- Claim C6 counterexample: When the common name is absent it is derived
from the endpoint host and never validated: the effective common name
"*.example.com" starts with '*' and fails the DNS grammar, yet Register
succeeds and writes the VASP. -/
theorem register_wildcard_derived_cex :
    wildReq.commonName = "" ∧
    splitHostPort wildReq.trisaEndpoint = .ok ("*.example.com", "443") ∧
    (ValidateCommonName "*.example.com").isOk = false ∧
    (Register wildReq emptyWorld).1.isOk = true ∧
    ((Register wildReq emptyWorld).2.store.vasps.map (fun v => v.commonName))
      = ["*.example.com"] := by
  exact ⟨rfl, by decide, by decide, by decide, by decide⟩

/-! Section: Claims C1 and C2: what a successful Register persists -/

/-- Store lemma: a record written through `updateVASP` is retrieved by its
id from the resulting store. -/
theorem retrieveVASP_after_update (st : Store) (v : VASP) (st' : Store)
    (h : st.updateVASP v = some st') : st'.retrieveVASP v.id = some v := by
  unfold Store.updateVASP at h
  by_cases hany : st.vasps.any (fun u => u.id == v.id) = true
  · rw [if_pos hany] at h
    cases h
    unfold Store.retrieveVASP
    have hkey : (fun u : VASP => u.id == v.id) v = true := by simp
    have := find?_filter_ne_append st.vasps (fun u => u.id == v.id) v hkey
    simpa [bne] using this
  · rw [if_neg hany] at h
    cases h

/-- Store lemma: `updateVASP` does not touch the certificate requests. -/
theorem updateVASP_certreqs (st : Store) (v : VASP) (st' : Store)
    (h : st.updateVASP v = some st') : st'.certreqs = st.certreqs := by
  unfold Store.updateVASP at h
  by_cases hany : st.vasps.any (fun u => u.id == v.id) = true
  · rw [if_pos hany] at h
    cases h
    rfl
  · rw [if_neg hany] at h
    cases h

/-- Store lemma: a record written through `updateCertReq` is retrieved by
its id from the resulting store. -/
theorem retrieveCertReq_after_update (st : Store) (r : CertificateRequest) :
    (st.updateCertReq r).retrieveCertReq r.id = some r := by
  unfold Store.updateCertReq Store.retrieveCertReq
  have hkey : (fun q : CertificateRequest => q.id == r.id) r = true := by simp
  have := find?_filter_ne_append st.certreqs (fun q => q.id == r.id) r hkey
  simpa [bne] using this

/-- Store lemma: a certificate request written through `updateCertReq`
survives a later `updateVASP` and is retrieved by its id. -/
theorem retrieveCertReq_after_updateVASP (st : Store) (r : CertificateRequest)
    (v : VASP) (st' : Store)
    (h : (st.updateCertReq r).updateVASP v = some st') :
    st'.retrieveCertReq r.id = some r := by
  unfold Store.retrieveCertReq
  rw [updateVASP_certreqs _ _ _ h]
  exact retrieveCertReq_after_update st r

/-- Vault lemma, `h`-form of `vault_create_add_latest`. -/
theorem vault_addVersion_latest (vt vt' : Vault) (s n p : String)
    (h : (vt.createSecret s n).addSecretVersion s n p = .ok vt') :
    vt'.latestVersion s n = some p := by
  obtain ⟨vt'', h2, h3⟩ := vault_create_add_latest vt s n p
  rw [h2] at h
  cases h
  exact h3

/-- The latest certificate-request id on a VASP after `appendCertReqID`. -/
theorem appendCertReqID_last (v : VASP) (i : String) :
    (appendCertReqID v i).certReqIDs.getLast? = some i := by
  simp [appendCertReqID, List.getLast?_concat]

/-- Everything a successful Register persists about its new
CertificateRequest: the written VASP's latest certificate-request id names
a stored request that is in INITIALIZED with exactly its creation audit
entry, and whose vault scope holds the 16-byte ASCII reply password as the
latest "password" version. -/
def registerOutcomeProp (p : Except Err RegisterReply × World) : Prop :=
  match p.1 with
  | .error _ => True
  | .ok r =>
    match p.2.store.retrieveVASP r.id with
    | none => False
    | some v =>
      match v.certReqIDs.getLast? with
      | none => False
      | some crId =>
        match p.2.store.retrieveCertReq crId with
        | none => False
        | some cr =>
          cr.id = crId ∧ cr.status = .INITIALIZED ∧
          cr.auditLog.map (fun a => a.currentState) = [.INITIALIZED] ∧
          r.pkcs12Password.length = 16 ∧ asciiOnly r.pkcs12Password = true ∧
          p.2.vault.latestVersion crId "password" = some r.pkcs12Password

/-- Master lemma for C1 and C2: the Register outcome property holds of
every call. -/
theorem register_outcome (req : RegisterRequest) (w : World) :
    registerOutcomeProp (Register req w) := by
  unfold Register
  repeat' (first | exact trivial | split | dsimp only)
  all_goals
    rename_i x1 vt2 heqv x0 st5 heq5
    have h5 := retrieveVASP_after_update _ _ _ heq5
    have hcr := retrieveCertReq_after_updateVASP _ _ _ _ heq5
    have hlatest := vault_addVersion_latest _ _ _ _ _ heqv
    unfold registerOutcomeProp
    dsimp only
    rw [h5]
    dsimp only
    rw [appendCertReqID_last]
    dsimp only
    rw [hcr]
    dsimp only
    refine ⟨rfl, ?_, ?_, ?_, ?_, ?_⟩
    · simp [updateCertificateRequestStatus]
    · simp [updateCertificateRequestStatus, newCertificateRequest]
    · exact createToken_length _ _
    · exact createToken_ascii _ _
    · exact hlatest

/-- Claim-1 property of one Register outcome: when the call succeeds, the
latest certificate-request id on the written VASP names a persisted
CertificateRequest whose status is `s` and whose audit log never recorded
any other state. -/
def registerPersistsCertReq (p : Except Err RegisterReply × World)
    (s : CertificateRequestState) : Prop :=
  match p.1 with
  | .error _ => True
  | .ok r =>
    match p.2.store.retrieveVASP r.id with
    | none => False
    | some v =>
      match v.certReqIDs.getLast? with
      | none => False
      | some crId =>
        match p.2.store.retrieveCertReq crId with
        | none => False
        | some cr =>
          cr.status = s ∧ cr.auditLog.map (fun a => a.currentState) = [s]

/-- Claim C1 (amended): For every Register call that succeeds, the
CertificateRequest it creates is persisted with Status INITIALIZED: the
request is created in INITIALIZED and is still INITIALIZED — never
READY_TO_SUBMIT — when Register returns its reply (the flip to
READY_TO_SUBMIT belongs to the later admin-review step). -/
theorem register_certreq_initialized (req : RegisterRequest) (w : World) :
    registerPersistsCertReq (Register req w) .INITIALIZED := by
  have hm := register_outcome req w
  unfold registerOutcomeProp at hm
  unfold registerPersistsCertReq
  rcases hp : (Register req w).1 with e | r
  · trivial
  · simp only [hp] at hm ⊢
    rcases hv : (Register req w).2.store.retrieveVASP r.id with _ | v
    · simp only [hv] at hm
    · simp only [hv] at hm ⊢
      rcases hl : v.certReqIDs.getLast? with _ | crId
      · simp only [hl] at hm
      · simp only [hl] at hm ⊢
        rcases hc : (Register req w).2.store.retrieveCertReq crId with _ | cr
        · simp only [hc] at hm
        · simp only [hc] at hm ⊢
          exact ⟨hm.2.1, hm.2.2.1⟩

/-- Claim C1 counterexample: A successful Register persists its certificate
request in INITIALIZED; it is not transitioned to READY_TO_SUBMIT before
Register returns. -/
theorem register_certreq_initialized_cex :
    (Register demoReq emptyWorld).1.isOk = true ∧
    ((Register demoReq emptyWorld).2.store.certreqs.map (fun c => c.status))
      = [.INITIALIZED] ∧
    CertificateRequestState.INITIALIZED ≠ CertificateRequestState.READY_TO_SUBMIT := by
  exact ⟨by decide, by decide, by decide⟩

/-- Claim-2 property of one Register outcome: when the call succeeds, the
reply password is 16 ASCII bytes and the latest "password" version in the
vault scope of the new CertificateRequest equals it byte for byte. -/
def registerPasswordPersisted (p : Except Err RegisterReply × World) : Prop :=
  match p.1 with
  | .error _ => True
  | .ok r =>
    r.pkcs12Password.length = 16 ∧ asciiOnly r.pkcs12Password = true ∧
    match p.2.store.retrieveVASP r.id with
    | none => False
    | some v =>
      match v.certReqIDs.getLast? with
      | none => False
      | some crId =>
        p.2.vault.latestVersion crId "password" = some r.pkcs12Password

/-- Claim C2: For every Register call that succeeds, the latest version of
the "password" secret stored in the vault under the new
CertificateRequest's scope is exactly 16 bytes long (16 ASCII characters,
one byte each) and is byte-for-byte equal to the Pkcs12Password field of
the RegisterReply. -/
theorem register_password_sixteen_bytes_matches_vault
    (req : RegisterRequest) (w : World) :
    registerPasswordPersisted (Register req w) := by
  have hm := register_outcome req w
  unfold registerOutcomeProp at hm
  unfold registerPasswordPersisted
  rcases hp : (Register req w).1 with e | r
  · trivial
  · simp only [hp] at hm ⊢
    rcases hv : (Register req w).2.store.retrieveVASP r.id with _ | v
    · simp only [hv] at hm
    · simp only [hv] at hm ⊢
      rcases hl : v.certReqIDs.getLast? with _ | crId
      · simp only [hl] at hm
      · simp only [hl] at hm ⊢
        rcases hc : (Register req w).2.store.retrieveCertReq crId with _ | cr
        · simp only [hc] at hm
        · simp only [hc] at hm
          exact ⟨hm.2.2.2.1, hm.2.2.2.2.1, hm.2.2.2.2.2⟩

/-! Section: Claims C7 and C8: VerifyContact -/

theorem getSlot_setSlot_self (cts : Contacts) (k : ContactKind) (c : Option Contact) :
    (cts.setSlot k c).getSlot k = c := by
  cases k <;> rfl

theorem getSlot_setSlot_ne (cts : Contacts) (k k' : ContactKind) (c : Option Contact)
    (h : k' ≠ k) : (cts.setSlot k c).getSlot k' = cts.getSlot k' := by
  cases k <;> cases k' <;> first | rfl | exact absurd rfl h

/-- A contact-scan step leaves the accumulator alone when the slot holds no
contact with the token and no verified contact. -/
theorem scanSlot_skip (tok : String) (acc : VASP × Bool × Nat × String)
    (k : ContactKind)
    (h : ∀ c, acc.1.contacts.getSlot k = some c →
      c.token ≠ tok ∧ c.verified = false) :
    scanSlot tok acc k = acc := by
  obtain ⟨v, found, prev, em⟩ := acc
  unfold scanSlot
  dsimp only
  rcases hs : v.contacts.getSlot k with _ | c
  · rfl
  · obtain ⟨h1, h2⟩ := h c hs
    have hb : (c.token == tok) = false := by simpa using h1
    simp [hb, h2]

/-- A contact-scan step on the slot holding the token: the contact is
cleared and marked verified, the self audit entry is appended, and the
accumulator records the match. -/
theorem scanSlot_hit (tok : String) (v : VASP) (found : Bool) (prev : Nat)
    (em : String) (k : ContactKind) (c : Contact)
    (hs : v.contacts.getSlot k = some c) (ht : c.token = tok) :
    scanSlot tok (v, found, prev, em) k =
      (updateVerificationStatus
        { v with contacts := v.contacts.setSlot k (some (setContactVerification c "" true)) }
        v.verificationStatus "contact verified" c.email,
       true, prev, c.email) := by
  unfold scanSlot
  dsimp only
  rw [hs]
  have hb : (c.token == tok) = true := by simpa using ht
  simp [hb, updateVerificationStatus]

/-- A contact-scan step never changes the VASP or the found flag when the
slot holds no contact carrying the token. -/
theorem scanSlot_nomatch (tok : String) (acc : VASP × Bool × Nat × String)
    (k : ContactKind)
    (h : ∀ c, acc.1.contacts.getSlot k = some c → c.token ≠ tok) :
    (scanSlot tok acc k).1 = acc.1 ∧ (scanSlot tok acc k).2.1 = acc.2.1 := by
  obtain ⟨v, found, prev, em⟩ := acc
  unfold scanSlot
  dsimp only
  rcases hs : v.contacts.getSlot k with _ | c
  · exact ⟨rfl, rfl⟩
  · have h1 := h c hs
    have hb : (c.token == tok) = false := by simpa using h1
    by_cases hv : c.verified = true <;> simp [hb, hv]

/-- The VASP after the contact scan clears the matched slot: token removed,
verified set, one audit self-entry appended. -/
def vcScanVasp (vasp : VASP) (k : ContactKind) (c : Contact) : VASP :=
  updateVerificationStatus
    { vasp with contacts := vasp.contacts.setSlot k (some (setContactVerification c "" true)) }
    vasp.verificationStatus "contact verified" c.email

/-- The contact scan when exactly the contact in slot `k` carries the token
and no contact is verified: the contact is cleared, a match is recorded,
and no previously-verified contact is counted. -/
theorem scanContacts_first (tok : String) (v : VASP) (k : ContactKind) (c : Contact)
    (hs : v.contacts.getSlot k = some c) (ht : c.token = tok)
    (hoth : ∀ k' c', k' ≠ k → v.contacts.getSlot k' = some c' →
      c'.token ≠ tok ∧ c'.verified = false) :
    scanContacts tok v = (vcScanVasp v k c, true, 0, c.email) := by
  have hcts : (vcScanVasp v k c).contacts =
      v.contacts.setSlot k (some (setContactVerification c "" true)) := rfl
  have hskip : ∀ k', k' ≠ k →
      ∀ c', (vcScanVasp v k c).contacts.getSlot k' = some c' →
        c'.token ≠ tok ∧ c'.verified = false := by
    intro k' hk' c' hc'
    rw [hcts, getSlot_setSlot_ne _ _ _ _ hk'] at hc'
    exact hoth k' c' hk' hc'
  cases k
  case legal =>
    unfold scanContacts
    rw [scanSlot_hit tok v false 0 "" .legal c hs ht]
    rw [scanSlot_skip tok _ .administrative (fun c' hc' => hskip .administrative (by decide) c' hc')]
    rw [scanSlot_skip tok _ .technical (fun c' hc' => hskip .technical (by decide) c' hc')]
    rw [scanSlot_skip tok _ .billing (fun c' hc' => hskip .billing (by decide) c' hc')]
    rfl
  case administrative =>
    unfold scanContacts
    rw [scanSlot_skip tok _ .legal (fun c' hc' => (hoth .legal c' (by decide) hc'))]
    rw [scanSlot_hit tok v false 0 "" .administrative c hs ht]
    rw [scanSlot_skip tok _ .technical (fun c' hc' => hskip .technical (by decide) c' hc')]
    rw [scanSlot_skip tok _ .billing (fun c' hc' => hskip .billing (by decide) c' hc')]
    rfl
  case technical =>
    unfold scanContacts
    rw [scanSlot_skip tok _ .legal (fun c' hc' => (hoth .legal c' (by decide) hc'))]
    rw [scanSlot_skip tok _ .administrative (fun c' hc' => (hoth .administrative c' (by decide) hc'))]
    rw [scanSlot_hit tok v false 0 "" .technical c hs ht]
    rw [scanSlot_skip tok _ .billing (fun c' hc' => hskip .billing (by decide) c' hc')]
    rfl
  case billing =>
    unfold scanContacts
    rw [scanSlot_skip tok _ .legal (fun c' hc' => (hoth .legal c' (by decide) hc'))]
    rw [scanSlot_skip tok _ .administrative (fun c' hc' => (hoth .administrative c' (by decide) hc'))]
    rw [scanSlot_skip tok _ .technical (fun c' hc' => (hoth .technical c' (by decide) hc'))]
    rw [scanSlot_hit tok v false 0 "" .billing c hs ht]
    rfl

/-- The contact scan finds nothing and changes nothing when no contact
carries the token. -/
theorem scanContacts_nomatch (tok : String) (v : VASP)
    (h : ∀ k c, v.contacts.getSlot k = some c → c.token ≠ tok) :
    (scanContacts tok v).1 = v ∧ (scanContacts tok v).2.1 = false := by
  unfold scanContacts
  have h1 := scanSlot_nomatch tok (v, false, 0, "") .legal
    (fun c hc => h .legal c hc)
  have h2 := scanSlot_nomatch tok (scanSlot tok (v, false, 0, "") .legal)
    .administrative (fun c hc => h .administrative c (by rw [h1.1] at hc; exact hc))
  have h3 := scanSlot_nomatch tok
    (scanSlot tok (scanSlot tok (v, false, 0, "") .legal) .administrative)
    .technical (fun c hc => h .technical c (by rw [h2.1, h1.1] at hc; exact hc))
  have h4 := scanSlot_nomatch tok
    (scanSlot tok (scanSlot tok (scanSlot tok (v, false, 0, "") .legal) .administrative) .technical)
    .billing (fun c hc => h .billing c (by rw [h3.1, h2.1, h1.1] at hc; exact hc))
  constructor
  · rw [h4.1, h3.1, h2.1, h1.1]
  · rw [h4.2, h3.2, h2.2, h1.2]

/-- Store lemma: what `retrieveVASP` returns came from the store and bears
the requested id. -/
theorem retrieveVASP_spec (st : Store) (i : String) (v : VASP)
    (h : st.retrieveVASP i = some v) : v ∈ st.vasps ∧ v.id = i := by
  unfold Store.retrieveVASP at h
  refine ⟨List.mem_of_find?_eq_some h, ?_⟩
  have := List.find?_some h
  simpa using this

/-- Store lemma: `updateVASP` on a store that holds the id performs the
keyed overwrite. -/
theorem updateVASP_eq_of_any (st : Store) (v : VASP)
    (hany : st.vasps.any (fun u => u.id == v.id) = true) :
    st.updateVASP v =
      some { st with
        vasps := st.vasps.filter (fun u => u.id != v.id) ++ [v] } := by
  unfold Store.updateVASP
  rw [if_pos hany]

/-- Store lemma: retrieval from a keyed overwrite result. -/
theorem retrieveVASP_filter_append (l : List VASP) (cr : List CertificateRequest)
    (v : VASP) (i : String) (hid : v.id = i) :
    Store.retrieveVASP ⟨l.filter (fun u => u.id != v.id) ++ [v], cr⟩ i = some v := by
  subst hid
  unfold Store.retrieveVASP
  have hkey : (fun u : VASP => u.id == v.id) v = true := by simp
  have := find?_filter_ne_append l (fun u => u.id == v.id) v hkey
  simpa [bne] using this

/-- The VASP persisted by the first-verification path of VerifyContact:
contact cleared, EMAIL_VERIFIED then PENDING_REVIEW transitions recorded,
admin token set. -/
def vcFinalVasp (vasp : VASP) (k : ContactKind) (c : Contact) (t48 : String) : VASP :=
  updateVerificationStatus
    (setAdminVerificationToken
      (updateVerificationStatus (vcScanVasp vasp k c) .EMAIL_VERIFIED
        "completed email verification" c.email)
      t48)
    .PENDING_REVIEW "review email sent" c.email

/-- The reply message of the first-verification path (gds.go line 565). -/
def vcLongMessage : String :=
  "email successfully verified and verification review sent to TRISA admins"

/-- Master lemma for C7 and C8: the first VerifyContact call on a VASP in
SUBMITTED whose slot `k` holds the (sole, unverified) contact carrying the
token runs the full first-verification path. -/
theorem verifyContact_first_path (w : World) (vid tok : String) (vasp : VASP)
    (k : ContactKind) (c : Contact)
    (hret : w.store.retrieveVASP vid = some vasp)
    (htok : tok ≠ "")
    (hsub : vasp.verificationStatus = .SUBMITTED)
    (hs : vasp.contacts.getSlot k = some c) (ht : c.token = tok)
    (hoth : ∀ k' c', k' ≠ k → vasp.contacts.getSlot k' = some c' →
      c'.token ≠ tok ∧ c'.verified = false) :
    (VerifyContact vid tok w).1 = .ok ⟨.PENDING_REVIEW, vcLongMessage⟩ ∧
    (VerifyContact vid tok w).2.vault = w.vault ∧
    (VerifyContact vid tok w).2.outbox = w.outbox ++ [⟨"review_request", "admins"⟩] ∧
    (VerifyContact vid tok w).2.store.retrieveVASP vid =
      some (vcFinalVasp vasp k c (createToken w.ctr 48)) := by
  obtain ⟨hmem, hvid⟩ := retrieveVASP_spec _ _ _ hret
  subst hvid
  have hscan := scanContacts_first tok vasp k c hs ht hoth
  unfold VerifyContact
  rw [if_neg htok, hret]
  dsimp only
  rw [hscan]
  dsimp only
  rw [if_neg (by simp)]
  rw [if_neg (by simp [vcScanVasp, updateVerificationStatus])]
  dsimp only [World.freshToken]
  rw [updateVASP_eq_of_any]
  case hany =>
    exact List.any_eq_true.mpr ⟨vasp, hmem,
      by simp [vcScanVasp, updateVerificationStatus, setAdminVerificationToken]⟩
  dsimp only [sendReviewRequest]
  rw [updateVASP_eq_of_any]
  case hany =>
    refine List.any_eq_true.mpr ⟨_, List.mem_append_right _ (List.mem_singleton.mpr rfl), ?_⟩
    simp [vcScanVasp, updateVerificationStatus, setAdminVerificationToken]
  dsimp only
  refine ⟨?_, rfl, rfl, ?_⟩
  · simp [updateVerificationStatus, vcLongMessage]
  · exact retrieveVASP_filter_append _ _ _ _ rfl

/-- A VerifyContact call whose token matches no contact returns NOT_FOUND
and performs no write at all. -/
theorem verifyContact_nomatch (w : World) (vid tok : String) (vasp : VASP)
    (hret : w.store.retrieveVASP vid = some vasp)
    (htok : tok ≠ "")
    (h : ∀ k c, vasp.contacts.getSlot k = some c → c.token ≠ tok) :
    VerifyContact vid tok w =
      (.error ⟨.NotFound, "could not find contact with the specified token"⟩, w) := by
  unfold VerifyContact
  rw [if_neg htok, hret]
  dsimp only
  obtain ⟨h1, h2⟩ := scanContacts_nomatch tok vasp h
  rw [h2]
  simp

/-- The contacts aggregate the first-verification path persists. -/
theorem vcFinalVasp_slots (vasp : VASP) (k : ContactKind) (c : Contact) (t48 : String) :
    (vcFinalVasp vasp k c t48).contacts =
      vasp.contacts.setSlot k (some (setContactVerification c "" true)) := rfl

/-- One admin-review email more after appending one review request. -/
theorem countReviewEmails_append_review (l : List Email) :
    countReviewEmails (l ++ [⟨"review_request", "admins"⟩]) =
      countReviewEmails l + 1 := by
  simp [countReviewEmails, List.filter_append]

/-- Claim C7 (amended): VerifyContact is single-use per token: for every VASP
in SUBMITTED whose slot `k` holds the only contact carrying the (sole,
unverified) token, the first call succeeds with the message "email
successfully verified and verification review sent to TRISA admins" (not
the bare "email successfully verified") and clears the token, the second
call with the same token returns NOT_FOUND and leaves the entire world —
VASP verification state and contact send-log included — unchanged, and
exactly one admin-review email is sent across both calls. -/
theorem verify_contact_token_single_use (w : World) (vid tok : String)
    (vasp : VASP) (k : ContactKind) (c : Contact)
    (hret : w.store.retrieveVASP vid = some vasp)
    (htok : tok ≠ "")
    (hsub : vasp.verificationStatus = .SUBMITTED)
    (hs : vasp.contacts.getSlot k = some c) (ht : c.token = tok)
    (hoth : ∀ k' c', k' ≠ k → vasp.contacts.getSlot k' = some c' →
      c'.token ≠ tok ∧ c'.verified = false) :
    (VerifyContact vid tok w).1 = .ok ⟨.PENDING_REVIEW, vcLongMessage⟩ ∧
    ((VerifyContact vid tok w).2.store.retrieveVASP vid).map
      (fun v => v.contacts.getSlot k) = some (some (setContactVerification c "" true)) ∧
    VerifyContact vid tok (VerifyContact vid tok w).2 =
      (.error ⟨.NotFound, "could not find contact with the specified token"⟩,
       (VerifyContact vid tok w).2) ∧
    countReviewEmails
        (VerifyContact vid tok (VerifyContact vid tok w).2).2.outbox =
      countReviewEmails w.outbox + 1 := by
  obtain ⟨r1, rvault, routbox, rret⟩ :=
    verifyContact_first_path w vid tok vasp k c hret htok hsub hs ht hoth
  have hsecond : VerifyContact vid tok (VerifyContact vid tok w).2 =
      (.error ⟨.NotFound, "could not find contact with the specified token"⟩,
       (VerifyContact vid tok w).2) := by
    apply verifyContact_nomatch _ _ _ _ rret htok
    intro k' c' hk'
    rw [vcFinalVasp_slots] at hk'
    by_cases hkk : k' = k
    · subst hkk
      rw [getSlot_setSlot_self] at hk'
      cases hk'
      exact fun hh => htok hh.symm
    · rw [getSlot_setSlot_ne _ _ _ _ hkk] at hk'
      exact (hoth k' c' hkk hk').1
  refine ⟨r1, ?_, hsecond, ?_⟩
  · rw [rret]
    simp [vcFinalVasp_slots, getSlot_setSlot_self]
  · rw [hsecond]
    dsimp only
    rw [routbox, countReviewEmails_append_review]

/-- A contact still carrying its verification token. -/
def demoVCContact : Contact :=
  { name := "Jane Doe", email := "a@x.io", phone := "",
    token := "TOKL", verified := false, sendLog := [] }

/-- A registered VASP awaiting its first contact verification. -/
def demoVCVasp : VASP :=
  { demoVaspBase with
    contacts := { administrative := none, technical := none, billing := none,
                  legal := some demoVCContact } }

/-- The world holding `demoVCVasp`. -/
def demoVCWorld : World :=
  { store := { vasps := [demoVCVasp], certreqs := [] }, vault := ⟨[]⟩,
    outbox := [], ctr := 0 }

/-- Claim C7 counterexample: The first matching VerifyContact call does not
return the message "email successfully verified": on the first verified
contact it returns the longer review-notification message. -/
theorem verify_contact_message_cex :
    (VerifyContact "vasp-1" "TOKL" demoVCWorld).1 =
      .ok ⟨.PENDING_REVIEW, vcLongMessage⟩ ∧
    vcLongMessage ≠ "email successfully verified" := by
  exact ⟨by decide, by decide⟩

/-- Witness for C7 (amended): the two-call scenario on `demoVCWorld`. -/
theorem verify_contact_token_single_use_witness :
    (VerifyContact "vasp-1" "TOKL" demoVCWorld).1 =
      .ok ⟨.PENDING_REVIEW, vcLongMessage⟩ ∧
    VerifyContact "vasp-1" "TOKL" (VerifyContact "vasp-1" "TOKL" demoVCWorld).2 =
      (.error ⟨.NotFound, "could not find contact with the specified token"⟩,
       (VerifyContact "vasp-1" "TOKL" demoVCWorld).2) ∧
    countReviewEmails
        (VerifyContact "vasp-1" "TOKL"
          (VerifyContact "vasp-1" "TOKL" demoVCWorld).2).2.outbox =
      countReviewEmails demoVCWorld.outbox + 1 := by
  have h := verify_contact_token_single_use demoVCWorld "vasp-1" "TOKL"
    demoVCVasp .legal demoVCContact (by decide) (by decide) (by decide)
    (by decide) (by decide) ?hoth
  case hoth =>
    intro k' c' hk' hc'
    cases k'
    case legal => exact absurd rfl hk'
    all_goals simp [demoVCVasp, demoVaspBase, Contacts.getSlot] at hc'
  exact ⟨h.1, h.2.2.1, h.2.2.2⟩

/-- Claim C8: For every VerifyContact call whose token matches the (sole,
unverified) contact of a VASP in SUBMITTED with no previously verified
contact: the VASP transitions SUBMITTED → EMAIL_VERIFIED, a 48-byte admin
verification token is generated and persisted, the admin review email send
is attempted (one review-request email appended to the outbox), and the
VASP then transitions EMAIL_VERIFIED → PENDING_REVIEW, which is the status
returned in the reply. -/
theorem verify_contact_first_verification_flow (w : World) (vid tok : String)
    (vasp : VASP) (k : ContactKind) (c : Contact)
    (hret : w.store.retrieveVASP vid = some vasp)
    (htok : tok ≠ "")
    (hsub : vasp.verificationStatus = .SUBMITTED)
    (hs : vasp.contacts.getSlot k = some c) (ht : c.token = tok)
    (hoth : ∀ k' c', k' ≠ k → vasp.contacts.getSlot k' = some c' →
      c'.token ≠ tok ∧ c'.verified = false) :
    (VerifyContact vid tok w).1 = .ok ⟨.PENDING_REVIEW, vcLongMessage⟩ ∧
    (VerifyContact vid tok w).2.store.retrieveVASP vid =
      some (vcFinalVasp vasp k c (createToken w.ctr 48)) ∧
    (vcFinalVasp vasp k c (createToken w.ctr 48)).verificationStatus
      = .PENDING_REVIEW ∧
    (vcFinalVasp vasp k c (createToken w.ctr 48)).adminVerificationToken.length
      = 48 ∧
    (vcFinalVasp vasp k c (createToken w.ctr 48)).auditLog = vasp.auditLog ++
      [⟨.SUBMITTED, .SUBMITTED, "contact verified", c.email⟩,
       ⟨.SUBMITTED, .EMAIL_VERIFIED, "completed email verification", c.email⟩,
       ⟨.EMAIL_VERIFIED, .PENDING_REVIEW, "review email sent", c.email⟩] ∧
    (VerifyContact vid tok w).2.outbox = w.outbox ++ [⟨"review_request", "admins"⟩] := by
  obtain ⟨r1, rvault, routbox, rret⟩ :=
    verifyContact_first_path w vid tok vasp k c hret htok hsub hs ht hoth
  refine ⟨r1, rret, rfl, ?_, ?_, routbox⟩
  · simp [vcFinalVasp, vcScanVasp, updateVerificationStatus,
      setAdminVerificationToken, createToken_length]
  · simp [vcFinalVasp, vcScanVasp, updateVerificationStatus,
      setAdminVerificationToken, hsub]

/-- Witness for C8: the first verification on `demoVCWorld`. -/
theorem verify_contact_first_verification_flow_witness :
    (VerifyContact "vasp-1" "TOKL" demoVCWorld).1 =
      .ok ⟨.PENDING_REVIEW, vcLongMessage⟩ ∧
    (vcFinalVasp demoVCVasp .legal demoVCContact (createToken 0 48)).adminVerificationToken.length
      = 48 ∧
    (VerifyContact "vasp-1" "TOKL" demoVCWorld).2.outbox =
      demoVCWorld.outbox ++ [⟨"review_request", "admins"⟩] := by
  have h := verify_contact_first_verification_flow demoVCWorld "vasp-1" "TOKL"
    demoVCVasp .legal demoVCContact (by decide) (by decide) (by decide)
    (by decide) (by decide) ?hoth
  case hoth =>
    intro k' c' hk' hc'
    cases k'
    case legal => exact absurd rfl hk'
    all_goals simp [demoVCVasp, demoVaspBase, Contacts.getSlot] at hc'
  exact ⟨h.1, h.2.2.2.1, h.2.2.2.2.2⟩

end GDS
